import Mathlib

/-
Shallow embedding of the SignalR C++ client connection core
(src/SignalR/clients/cpp/src/signalrclient/connection_impl.cpp).

The connection is a concurrent state machine driven by asynchronous
continuations.  We embed each atomic region of the code (the lock-guarded
regions and the individual pplx continuations) as a pure function on an
explicit connection record, and a labeled transition relation `Step` over a
system state that additionally tracks which continuations of the current
start pipeline are still pending and whether a shutdown is waiting on the
start-completed latch.  The pplx `task_completion_event` used for the
transport connect race is embedded as an `Option` holding the first
completion; later completions are no-ops, exactly as in pplx.
-/

namespace signalr

/-- Mirrors `enum connection_state` with its four values. -/
inductive ConnectionState
  | disconnected
  | connecting
  | connected
  | disconnecting
deriving DecidableEq, Repr

/-- Mirrors `connection_impl::translate_connection_state`. -/
def translate_connection_state : ConnectionState → String
  | ConnectionState.connecting => "connecting"
  | ConnectionState.connected => "connected"
  | ConnectionState.disconnecting => "disconnecting"
  | ConnectionState.disconnected => "disconnected"

/-- The connection_impl fields relevant to the verified claims.  The transport
handle (`std::shared_ptr<transport>`) is embedded as `Option Nat` (a nullable
handle identified by a number).  The per-session `pplx::cancellation_token_source
m_disconnect_cts` is embedded as a generation counter plus a canceled flag; a
fresh source is a bumped generation with `cts_canceled := false`.  The
`pplx::event m_start_completed_event` latch is a `Bool` (`true` = signaled).
The consumer callbacks and the http-header configuration are kept outside this
record (they are function-valued); see `Callbacks` and `Headers`. -/
structure Conn where
  m_base_url : String
  m_connection_state : ConnectionState
  m_transport : Option Nat
  m_connection_id : String
  m_message_id : String
  m_groups_token : String
  m_disconnect_cts : Nat
  cts_canceled : Bool
  m_start_completed_event : Bool
deriving DecidableEq, Repr

/-- The two consumer-supplied callbacks.  A callback body that may throw is
embedded as a function into `Except String Unit` (`Except.error` = the C++
callback threw). -/
structure Callbacks where
  m_message_received : String → Except String Unit
  m_disconnected : Unit → Except String Unit

/-- Mirrors the `connection_impl` constructor (and `create`): state
`disconnected`, no transport, empty identifiers, a fresh (non-canceled)
cancellation token source, the start-completed event non-signaled, and the
two callbacks initialized to no-op lambdas (`[](const utility::string_t&)
noexcept {}` and `[]() noexcept {}`). -/
def connection_impl.create (url : String) : Conn × Callbacks :=
  ({ m_base_url := url,
     m_connection_state := ConnectionState.disconnected,
     m_transport := none,
     m_connection_id := "",
     m_message_id := "",
     m_groups_token := "",
     m_disconnect_cts := 0,
     cts_canceled := false,
     m_start_completed_event := false },
   { m_message_received := fun _ => Except.ok (),
     m_disconnected := fun _ => Except.ok () })

/-- Mirrors the two-argument `connection_impl::change_state`, a
`compare_exchange_strong` on the atomic state: succeeds (and installs
`new_state`) only when the current state equals `old_state`. -/
def connection_impl.change_state_cas (c : Conn) (old_state new_state : ConnectionState) :
    Conn × Bool :=
  if c.m_connection_state = old_state then
    ({ c with m_connection_state := new_state }, true)
  else (c, false)

/-- Mirrors the one-argument `connection_impl::change_state`, an unconditional
`exchange` returning the previous state. -/
def connection_impl.change_state_force (c : Conn) (new_state : ConnectionState) :
    Conn × ConnectionState :=
  ({ c with m_connection_state := new_state }, c.m_connection_state)

/-- The fixed error message thrown by `connection_impl::start` when the
connection is not disconnected (connection_impl.cpp line 75). -/
def startInvalidStateMessage : String :=
  "cannot start a connection that is not in the disconnected state"

/-- Mirrors the lock-guarded region of `connection_impl::start` (lines 70-84):
a CAS disconnected → connecting; on failure an immediate error with the fixed
message and no mutation; on success a fresh cancellation token source, the
start-completed event reset, and the three session identifiers cleared.  The
second component is the error surfaced to the caller (`none` = the start
pipeline proceeds to `start_negotiate`). -/
def connection_impl.start (c : Conn) : Conn × Option String :=
  let r := connection_impl.change_state_cas c ConnectionState.disconnected ConnectionState.connecting
  if r.2 then
    ({ r.1 with
        m_disconnect_cts := c.m_disconnect_cts + 1,
        cts_canceled := false,
        m_start_completed_event := false,
        m_message_id := "",
        m_groups_token := "",
        m_connection_id := "" }, none)
  else (c, some startInvalidStateMessage)

/-- Mirrors the final continuation of `connection_impl::start_negotiate`
(lines 177-212): on success it signals the start-completed event and completes
the start task; on any failure (negotiate error, redirect limit, unsupported
transport, transport connect failure, timeout, cancellation) it logs, nulls
the transport, forces the state to disconnected, signals the start-completed
event and re-surfaces the same failure as the result of `start`. -/
def connection_impl.start_negotiate_finalize (c : Conn) (previous : Except String Unit) :
    Conn × Except String Unit :=
  match previous with
  | Except.ok _ => ({ c with m_start_completed_event := true }, Except.ok ())
  | Except.error e =>
      ({ (connection_impl.change_state_force { c with m_transport := none }
            ConnectionState.disconnected).1 with m_start_completed_event := true },
       Except.error e)

/-- Outcome of the lock-guarded prefix of `connection_impl::shutdown`
(lines 433-451): `ok` is the immediate `task_from_result` when already
disconnected, `canceled` is the canceled task returned when another stop is
already in progress, and `waiting` means the cancellation source was canceled
and shutdown now waits on the start-completed latch (still holding the lock). -/
inductive ShutdownBeginOutcome
  | ok
  | canceled
  | waiting
deriving DecidableEq, Repr

/-- Mirrors the prefix of `connection_impl::shutdown` up to the wait on
`m_start_completed_event`: the disconnected and disconnecting branches return
without touching any shared state (and without any transport call); otherwise
`m_disconnect_cts.cancel()` is performed and shutdown proceeds to the wait. -/
def connection_impl.shutdown_begin (c : Conn) : Conn × ShutdownBeginOutcome :=
  if c.m_connection_state = ConnectionState.disconnected then
    (c, ShutdownBeginOutcome.ok)
  else if c.m_connection_state = ConnectionState.disconnecting then
    (c, ShutdownBeginOutcome.canceled)
  else
    ({ c with cts_canceled := true }, ShutdownBeginOutcome.waiting)

/-- Outcome of the remainder of `connection_impl::shutdown` after the wait on
the start-completed latch: `ok` when the start pipeline already failed and
cleaned up (state disconnected), `disconnect` when shutdown transitions to
disconnecting and proceeds to call `m_transport->disconnect()`. -/
inductive ShutdownResumeOutcome
  | ok
  | disconnect
deriving DecidableEq, Repr

/-- Mirrors `connection_impl::shutdown` after `m_start_completed_event.wait`
returned (lines 462-474): if the state is disconnected the transport was
already nulled out and shutdown returns; otherwise (the code asserts the state
is connected) it forces the state to disconnecting and calls the transport's
disconnect operation. -/
def connection_impl.shutdown_resume (c : Conn) : Conn × ShutdownResumeOutcome :=
  if c.m_connection_state = ConnectionState.disconnected then
    (c, ShutdownResumeOutcome.ok)
  else
    ((connection_impl.change_state_force c ConnectionState.disconnecting).1,
     ShutdownResumeOutcome.disconnect)

/-- Mirrors the lock-guarded part of the continuation in `connection_impl::stop`
(lines 398-408): a CAS disconnecting → disconnected, and only the caller whose
CAS succeeded nulls out the transport. -/
def stop_finalize_conn (c : Conn) : Conn :=
  let r := connection_impl.change_state_cas c ConnectionState.disconnecting ConnectionState.disconnected
  if r.2 then { r.1 with m_transport := none } else r.1

/-- Mirrors the whole continuation in `connection_impl::stop` (lines 396-427):
the guarded CAS/null-out above, then the consumer's disconnected callback,
whose exception (if any) is caught and logged (second component: the logged
error entry) and never propagated — the continuation returns normally. -/
def connection_impl.stop_finalize (c : Conn) (disconnected_result : Except String Unit) :
    Conn × Option String :=
  (stop_finalize_conn c,
   match disconnected_result with
   | Except.ok _ => none
   | Except.error e => some ("disconnected callback threw an exception: " ++ e))

/-- Mirrors `connection_impl::invoke_message_received` (lines 333-350): the
consumer callback is invoked inside a try/catch; a thrown exception is turned
into a logged entry (the returned `Option String`) and never re-raised. -/
def connection_impl.invoke_message_received (cb : String → Except String Unit)
    (message : String) : Option String :=
  match cb message with
  | Except.ok _ => none
  | Except.error e => some ("message_received callback threw an exception: " ++ e)

/-- Mirrors `connection_impl::process_response` (lines 325-331): logs the
message and dispatches it to `invoke_message_received`.  Result: the connection
(unchanged — message dispatch performs no state transition), the list of
messages delivered to the consumer callback, and the error log entry produced
if the consumer callback threw. -/
def connection_impl.process_response (c : Conn) (cb : String → Except String Unit)
    (response : String) : Conn × List String × Option String :=
  (c, [response], connection_impl.invoke_message_received cb response)

/-- Mirrors `process_response_callback` in `connection_impl::start_transport`
(lines 227-247).  `snapshot_canceled` is the canceled flag of the
`disconnect_cts` captured by value at transport-creation time;
`connection_alive` models whether the weak pointer to the connection can still
be locked.  A message arriving after the captured scope was canceled is logged
as a stray and dropped; a message for a released connection is dropped
silently. -/
def transport_message_callback (snapshot_canceled : Bool) (connection_alive : Bool)
    (cb : String → Except String Unit) (c : Conn) (response : String) :
    Conn × List String × Option String :=
  if snapshot_canceled then
    (c, [],
     some ("ignoring stray message received after connection was restarted. message: " ++ response))
  else if connection_alive then
    connection_impl.process_response c cb response
  else (c, [], none)

/-- The pplx `task_completion_event<void>` used for the transport connect race,
embedded as the first completion it received (`none` = not yet completed). -/
abbrev Tce := Option (Except String Unit)

/-- Mirrors `task_completion_event::set()`: completes the event with success,
a no-op when the event was already completed. -/
def tce_set (t : Tce) : Tce :=
  match t with
  | none => some (Except.ok ())
  | some r => some r

/-- Mirrors `task_completion_event::set_exception`: completes the event with
the given error, a no-op when the event was already completed. -/
def tce_set_exception (e : String) (t : Tce) : Tce :=
  match t with
  | none => some (Except.error e)
  | some r => some r

/-- The fixed transport connect timeout of `connection_impl::start_transport`
(line 277): `std::this_thread::sleep_for(std::chrono::milliseconds(5000))`. -/
def transport_connect_timeout_ms : Nat := 5000

/-- Mirrors the body of the background timeout task in
`connection_impl::start_transport` (lines 274-291): when it fires it completes
the connect-completion event benignly if the session's cancellation source was
canceled in the meantime, and with the transport-timed-out error otherwise. -/
def connect_timeout_fire (disconnect_cts_canceled : Bool) (tce : Tce) : Tce :=
  if disconnect_cts_canceled then tce_set tce
  else tce_set_exception "transport timed out when trying to connect" tce

/-- Mirrors the continuation in `connection_impl::send_connect_request`
(lines 303-320): the transport's connect completion (success or failure)
completes the same connect-completion event. -/
def transport_connect_complete (result : Except String Unit) (tce : Tce) : Tce :=
  match result with
  | Except.ok _ => tce_set tce
  | Except.error e => tce_set_exception e tce

/-- Mirrors `error_callback` in `connection_impl::start_transport`
(lines 250-268): an error delivered after the captured cancellation scope was
canceled is logged as a stray and dropped (the connect-completion event is not
touched); otherwise the event is completed with the error (a no-op if the
connect already completed). -/
def transport_error_callback (snapshot_canceled : Bool) (e : String) (tce : Tce) :
    Tce × Option String :=
  if snapshot_canceled then
    (tce, some ("ignoring stray error received after connection was restarted. error: " ++ e))
  else (tce_set_exception e tce, none)

/-- One entry of `negotiation_response.availableTransports`. -/
structure AvailableTransport where
  transport : String
deriving DecidableEq, Repr

/-- Mirrors `negotiation_response` as consumed by
`connection_impl::start_negotiate` (empty string = field absent). -/
structure NegotiationResponse where
  error : String
  url : String
  accessToken : String
  connectionId : String
  availableTransports : List AvailableTransport
deriving DecidableEq, Repr

/-- The mutable http-header configuration of `signalr_client_config`,
embedded as a partial map from header name to value. -/
abbrev Headers := String → Option String

/-- Mirrors `headers[key] = value` on the `std::map` returned by
`get_http_headers()`: insert-or-overwrite. -/
def set_header (hs : Headers) (k v : String) : Headers :=
  fun x => if x = k then some v else hs x

/-- Modelled from the spec: `MAX_NEGOTIATE_REDIRECTS` is defined in
`constants.h`, which is not among the provided sources; the spec only states
that the negotiate redirect counter is checked against a fixed bound.  We fix
the bound at 100, the value used by the repository's constants header. -/
def MAX_NEGOTIATE_REDIRECTS : Nat := 100

/-- Result of the negotiation orchestration. -/
inductive NegotiateOutcome
  | redirectLimitExceeded
  | negotiateError (msg : String)
  | noWebSocketsSupport
  | proceed (connectionId : String) (url : String)
deriving DecidableEq, Repr

/-- Mirrors the decision structure of `connection_impl::start_negotiate`
(lines 89-155).  `o i` is the result of the i-th negotiate round trip issued
by this pipeline (`Except.error` = the request itself failed).  Returns the
header configuration after any bearer-token merges, the number of negotiate
calls issued, and the outcome: immediate redirect-limit failure (before any
negotiate call), a surfaced negotiate error, the explicit
unsupported-transport error, or the hand-off to `start_transport` with the
current (possibly redirected) url and the returned connection id. -/
def connection_impl.start_negotiate (hs : Headers)
    (o : Nat → Except String NegotiationResponse) (i : Nat) (url : String)
    (redirect_count : Nat) : Headers × Nat × NegotiateOutcome :=
  if _h : MAX_NEGOTIATE_REDIRECTS ≤ redirect_count then
    (hs, 0, NegotiateOutcome.redirectLimitExceeded)
  else
    match o i with
    | Except.error e => (hs, 1, NegotiateOutcome.negotiateError e)
    | Except.ok resp =>
      if resp.error ≠ "" then (hs, 1, NegotiateOutcome.negotiateError resp.error)
      else if resp.url ≠ "" then
        let hs1 := if resp.accessToken ≠ "" then
            set_header hs "Authorization" ("Bearer " ++ resp.accessToken)
          else hs
        let r := connection_impl.start_negotiate hs1 o (i + 1) resp.url (redirect_count + 1)
        (r.1, r.2.1 + 1, r.2.2)
      else if resp.availableTransports.any (fun t => t.transport = "WebSockets") then
        (hs, 1, NegotiateOutcome.proceed resp.connectionId url)
      else (hs, 1, NegotiateOutcome.noWebSocketsSupport)
termination_by MAX_NEGOTIATE_REDIRECTS - redirect_count
decreasing_by omega

/-- Outcome of `connection_impl::send`. -/
inductive SendOutcome
  | failed (msg : String)
  | sent (t : Nat)
  | transportError (t : Nat) (msg : String)
deriving DecidableEq, Repr

/-- The error message of `connection_impl::send` (lines 362-364): it names the
current connection state. -/
def send_error_message (s : ConnectionState) : String :=
  "cannot send data when the connection is not in the connected state. current connection state: "
    ++ translate_connection_state s

/-- Mirrors `connection_impl::send` (lines 352-388): the transport handle is
snapshotted into a local first; if the state is not connected or the snapshot
is null, fail with the not-connected message naming the current state and do
not touch the transport; otherwise forward to the snapshotted transport —
`transport_send t data` is the transport's result, whose error is logged and
re-thrown to the caller. -/
def connection_impl.send (c : Conn) (data : String)
    (transport_send : Nat → String → Except String Unit) : SendOutcome :=
  let transport := c.m_transport
  match transport with
  | none => SendOutcome.failed (send_error_message c.m_connection_state)
  | some t =>
    if c.m_connection_state = ConnectionState.connected then
      match transport_send t data with
      | Except.ok _ => SendOutcome.sent t
      | Except.error e => SendOutcome.transportError t e
    else SendOutcome.failed (send_error_message c.m_connection_state)

/-- Pending continuations of the current start pipeline: `negotiating` covers
everything from the return of `start`'s locked region up to (and including)
the transport connect race; `finishing` is after the transport was recorded as
current and the connecting → connected transition was performed, before the
final continuation signals the start-completed event. -/
inductive Phase
  | idle
  | negotiating
  | finishing
deriving DecidableEq, Repr

/-- Progress of a shutdown call: `waiting` means the lock-holding shutdown has
canceled the session's cancellation source and is blocked on the
start-completed latch. -/
inductive StopPhase
  | idle
  | waiting
deriving DecidableEq, Repr

/-- The system state of the labeled transition system: the connection record
plus the pipeline bookkeeping. -/
structure Sys where
  conn : Conn
  phase : Phase
  stopPhase : StopPhase
deriving DecidableEq, Repr

/-- A freshly created connection with no pipeline in flight. -/
def initialSys (url : String) : Sys :=
  { conn := (connection_impl.create url).1, phase := Phase.idle, stopPhase := StopPhase.idle }

/-- Effect of a `start()` call on the system: on a successful CAS the start
pipeline becomes pending; on failure nothing changes. -/
def startStep (s : Sys) : Sys :=
  if (connection_impl.start s.conn).2 = none then
    { s with conn := (connection_impl.start s.conn).1, phase := Phase.negotiating }
  else s

/-- Effect of the final continuation of the start pipeline running its catch
branch (any pipeline failure, including cancellation by a concurrent stop). -/
def finalizeErrorStep (s : Sys) : Sys :=
  { s with
    conn := (connection_impl.start_negotiate_finalize s.conn (Except.error "")).1,
    phase := Phase.idle }

/-- Effect of the continuation in `start_negotiate` that records the connected
transport (lines 156-175): `m_transport = transport` followed by the CAS
connecting → connected (a failing CAS is logged as an internal error and the
state is left unchanged). -/
def transportConnectedStep (s : Sys) (t : Nat) : Sys :=
  { s with
    conn := (connection_impl.change_state_cas { s.conn with m_transport := some t }
        ConnectionState.connecting ConnectionState.connected).1,
    phase := Phase.finishing }

/-- Effect of the final continuation of the start pipeline running its success
branch: the start-completed event is signaled and the start task completes. -/
def finalizeOkStep (s : Sys) : Sys :=
  { s with
    conn := (connection_impl.start_negotiate_finalize s.conn (Except.ok ())).1,
    phase := Phase.idle }

/-- Effect of the lock-guarded prefix of `shutdown`. -/
def shutdownBeginStep (s : Sys) : Sys :=
  { s with
    conn := (connection_impl.shutdown_begin s.conn).1,
    stopPhase :=
      if (connection_impl.shutdown_begin s.conn).2 = ShutdownBeginOutcome.waiting then
        StopPhase.waiting
      else s.stopPhase }

/-- Effect of shutdown resuming after the start-completed latch was signaled. -/
def shutdownResumeStep (s : Sys) : Sys :=
  { s with conn := (connection_impl.shutdown_resume s.conn).1, stopPhase := StopPhase.idle }

/-- Effect of the continuation in `stop` after shutdown's task completed. -/
def stopFinalizeStep (s : Sys) : Sys :=
  { s with conn := stop_finalize_conn s.conn }

/-- The atomic transitions of the connection core.  `start` and the shutdown
and stop steps model the lock-guarded regions; the pipeline steps model the
individual pplx continuations, guarded by which continuations are still
pending; `observe` covers `send`, the getters and the callback/configuration
setters, none of which mutates the state, the transport handle or the session
identifiers. -/
inductive Step : Sys → Sys → Prop
  | start (s : Sys) : Step s (startStep s)
  | finalizeError (s : Sys) (h : s.phase = Phase.negotiating) : Step s (finalizeErrorStep s)
  | transportConnected (s : Sys) (t : Nat) (h : s.phase = Phase.negotiating) :
      Step s (transportConnectedStep s t)
  | finalizeOk (s : Sys) (h : s.phase = Phase.finishing) : Step s (finalizeOkStep s)
  | shutdownBegin (s : Sys) (h : s.stopPhase = StopPhase.idle) : Step s (shutdownBeginStep s)
  | shutdownResume (s : Sys) (h : s.stopPhase = StopPhase.waiting)
      (hl : s.conn.m_start_completed_event = true) : Step s (shutdownResumeStep s)
  | stopFinalize (s : Sys) : Step s (stopFinalizeStep s)
  | observe (s : Sys) : Step s s

/-- The invariant claimed by the spec: a non-null transport handle implies the
state is connecting, connected or disconnecting; equivalently a disconnected
connection has no transport attached. -/
def transport_state_inv (c : Conn) : Prop :=
  (c.m_transport ≠ none →
     (c.m_connection_state = ConnectionState.connecting ∨
      c.m_connection_state = ConnectionState.connected ∨
      c.m_connection_state = ConnectionState.disconnecting)) ∧
  (c.m_connection_state = ConnectionState.disconnected → c.m_transport = none)

/-- The inductive strengthening of `transport_state_inv`: while the start
pipeline is pending the state is the one start established and the
start-completed latch is still down (shutdown is blocked on it), so no other
party can have moved the state out from under the pending continuations. -/
def SysInv (s : Sys) : Prop :=
  transport_state_inv s.conn ∧
  (s.phase = Phase.negotiating →
     s.conn.m_connection_state = ConnectionState.connecting ∧
     s.conn.m_start_completed_event = false) ∧
  (s.phase = Phase.finishing →
     s.conn.m_connection_state = ConnectionState.connected ∧
     s.conn.m_start_completed_event = false)

/-- Substring test used to state that an error message names a state. -/
def listContainsSub (sub : List Char) : List Char → Bool
  | [] => sub.isEmpty
  | c :: rest => sub.isPrefixOf (c :: rest) || listContainsSub sub rest

/-- True when `sub` occurs as a contiguous substring of `s`. -/
def strContains (s sub : String) : Bool :=
  listContainsSub sub.toList s.toList

/-- A connection in the connecting state, used as the concrete input showing
that `start`'s invalid-state message does not name the offending state. -/
def cConnectingEx : Conn :=
  { m_base_url := "http://x.example",
    m_connection_state := ConnectionState.connecting,
    m_transport := none,
    m_connection_id := "",
    m_message_id := "",
    m_groups_token := "",
    m_disconnect_cts := 1,
    cts_canceled := false,
    m_start_completed_event := false }

/-- C1 counterexample: on a connection in the connecting state, `start` fails
with the fixed message of connection_impl.cpp line 75, and that message does
not contain the offending state's name ("connecting") — so the claim that the
invalid-state error names the offending state is false at this input. -/
theorem C1_counterexample :
    (connection_impl.start cConnectingEx).2 = some startInvalidStateMessage ∧
    strContains startInvalidStateMessage
        (translate_connection_state cConnectingEx.m_connection_state) = false := by
  exact ⟨rfl, by decide⟩

/-- C1 (amended): for every state other than disconnected, `start` fails
immediately with the invalid-state error carrying the fixed message (which
does not name the offending state) and leaves the connection record — state,
transport handle, session identifiers, cancellation source and latch —
entirely unchanged. -/
theorem C1_start_invalid_state (c : Conn)
    (h : c.m_connection_state ≠ ConnectionState.disconnected) :
    connection_impl.start c = (c, some startInvalidStateMessage) := by
  simp [connection_impl.start, connection_impl.change_state_cas, h]

/-- Concrete instance of `C1_start_invalid_state` at a connecting state. -/
theorem C1_start_invalid_state_witness :
    cConnectingEx.m_connection_state ≠ ConnectionState.disconnected ∧
    connection_impl.start cConnectingEx = (cConnectingEx, some startInvalidStateMessage) :=
  ⟨by decide, C1_start_invalid_state cConnectingEx (by decide)⟩

/-- C2: whenever the start pipeline fails at any stage, the final continuation
of `start_negotiate` transitions the connection back to disconnected, nulls
the transport handle, signals the start-completed latch, and surfaces exactly
the same failure as the result of `start` — never a partially-applied state. -/
theorem C2_start_failure_cleanup (c : Conn) (e : String) :
    (connection_impl.start_negotiate_finalize c (Except.error e)).1.m_connection_state
        = ConnectionState.disconnected ∧
    (connection_impl.start_negotiate_finalize c (Except.error e)).1.m_transport = none ∧
    (connection_impl.start_negotiate_finalize c
        (Except.error e)).1.m_start_completed_event = true ∧
    (connection_impl.start_negotiate_finalize c (Except.error e)).2 = Except.error e := by
  simp [connection_impl.start_negotiate_finalize, connection_impl.change_state_force]

/-- C3: the lock-guarded prefix of `shutdown` is idempotent — on a
disconnected connection it succeeds as a no-op (no shared-state mutation, no
transport call); on a disconnecting connection it returns the distinct
canceled (superseded) outcome without mutating anything, in particular
without nulling the transport. -/
theorem C3_shutdown_idempotent (c : Conn) :
    (c.m_connection_state = ConnectionState.disconnected →
       connection_impl.shutdown_begin c = (c, ShutdownBeginOutcome.ok)) ∧
    (c.m_connection_state = ConnectionState.disconnecting →
       connection_impl.shutdown_begin c = (c, ShutdownBeginOutcome.canceled)) := by
  constructor
  · intro h
    simp [connection_impl.shutdown_begin, h]
  · intro h
    simp [connection_impl.shutdown_begin, h]

/-- A disconnected connection used as concrete input for the C3 witness. -/
def cShutdownDiscEx : Conn :=
  { m_base_url := "http://x.example",
    m_connection_state := ConnectionState.disconnected,
    m_transport := none,
    m_connection_id := "",
    m_message_id := "",
    m_groups_token := "",
    m_disconnect_cts := 2,
    cts_canceled := true,
    m_start_completed_event := true }

/-- A disconnecting connection (a stop in flight, transport still attached)
used as concrete input for the C3 witness. -/
def cShutdownDiscingEx : Conn :=
  { m_base_url := "http://x.example",
    m_connection_state := ConnectionState.disconnecting,
    m_transport := some 5,
    m_connection_id := "abc",
    m_message_id := "",
    m_groups_token := "",
    m_disconnect_cts := 2,
    cts_canceled := true,
    m_start_completed_event := true }

/-- Concrete instances of `C3_shutdown_idempotent`. -/
theorem C3_shutdown_idempotent_witness :
    connection_impl.shutdown_begin cShutdownDiscEx = (cShutdownDiscEx, ShutdownBeginOutcome.ok) ∧
    connection_impl.shutdown_begin cShutdownDiscingEx
      = (cShutdownDiscingEx, ShutdownBeginOutcome.canceled) :=
  ⟨(C3_shutdown_idempotent cShutdownDiscEx).1 rfl,
   (C3_shutdown_idempotent cShutdownDiscingEx).2 rfl⟩

/-- C5: `send` snapshots the transport handle, fails with the not-connected
error naming the current state (without invoking the transport) whenever the
state is not connected or the snapshot is null, and otherwise forwards the
data to the snapshotted transport, re-signaling any transport error to the
caller. -/
theorem C5_send_requires_connected (c : Conn) (data : String)
    (transport_send : Nat → String → Except String Unit) :
    ((c.m_connection_state ≠ ConnectionState.connected ∨ c.m_transport = none) →
       connection_impl.send c data transport_send
         = SendOutcome.failed (send_error_message c.m_connection_state)) ∧
    strContains (send_error_message c.m_connection_state)
        (translate_connection_state c.m_connection_state) = true ∧
    (∀ t, c.m_transport = some t → c.m_connection_state = ConnectionState.connected →
       connection_impl.send c data transport_send
         = match transport_send t data with
           | Except.ok _ => SendOutcome.sent t
           | Except.error e => SendOutcome.transportError t e) := by
  refine ⟨?_, ?_, ?_⟩
  · intro h
    match hm : c.m_transport with
    | none => simp [connection_impl.send, hm]
    | some t =>
      rcases h with h | h
      · simp [connection_impl.send, hm, h]
      · rw [hm] at h
        exact absurd h (by simp)
  · cases c.m_connection_state <;> decide
  · intro t ht hcs
    simp [connection_impl.send, ht, hcs]

/-- A disconnected connection with no transport, concrete input for C5. -/
def cSendDiscEx : Conn :=
  { m_base_url := "http://x.example",
    m_connection_state := ConnectionState.disconnected,
    m_transport := none,
    m_connection_id := "",
    m_message_id := "",
    m_groups_token := "",
    m_disconnect_cts := 0,
    cts_canceled := false,
    m_start_completed_event := false }

/-- A connected connection with transport handle 7, concrete input for C5. -/
def cSendConnEx : Conn :=
  { m_base_url := "http://x.example",
    m_connection_state := ConnectionState.connected,
    m_transport := some 7,
    m_connection_id := "abc",
    m_message_id := "",
    m_groups_token := "",
    m_disconnect_cts := 1,
    cts_canceled := false,
    m_start_completed_event := true }

/-- Concrete instances of `C5_send_requires_connected`: a send while
disconnected fails with the state-naming message, a send while connected with
transport 7 reaches that transport. -/
theorem C5_send_requires_connected_witness :
    connection_impl.send cSendDiscEx "x" (fun _ _ => Except.ok ())
      = SendOutcome.failed (send_error_message cSendDiscEx.m_connection_state) ∧
    connection_impl.send cSendConnEx "x" (fun _ _ => Except.ok ()) = SendOutcome.sent 7 :=
  ⟨(C5_send_requires_connected cSendDiscEx "x" (fun _ _ => Except.ok ())).1
     (Or.inl (by decide)),
   (C5_send_requires_connected cSendConnEx "x" (fun _ _ => Except.ok ())).2.2 7 rfl rfl⟩

/-- C6: the 5000 ms timeout task completes the connect-completion event
benignly when the session's cancellation source was canceled in the meantime
and with the transport-timed-out error otherwise; completing an
already-completed event is a no-op, so the first completer among the
transport's connect result and the timeout wins, and a connect that already
succeeded is never retroactively failed. -/
theorem C6_connect_timeout_race :
    transport_connect_timeout_ms = 5000 ∧
    (∀ tce : Tce, connect_timeout_fire true tce = tce_set tce) ∧
    (∀ tce : Tce, connect_timeout_fire false tce
        = tce_set_exception "transport timed out when trying to connect" tce) ∧
    connect_timeout_fire true none = some (Except.ok ()) ∧
    connect_timeout_fire false none
      = some (Except.error "transport timed out when trying to connect") ∧
    (∀ (b : Bool) (r : Except String Unit), connect_timeout_fire b (some r) = some r) ∧
    (∀ (r : Except String Unit) (e : String),
       tce_set (some r) = some r ∧ tce_set_exception e (some r) = some r) ∧
    (∀ b : Bool, connect_timeout_fire b (transport_connect_complete (Except.ok ()) none)
        = some (Except.ok ())) ∧
    (∀ e : String, transport_connect_complete (Except.error e) (connect_timeout_fire false none)
        = some (Except.error "transport timed out when trying to connect")) := by
  refine ⟨rfl, fun tce => rfl, fun tce => rfl, rfl, rfl, ?_, ?_, ?_, ?_⟩
  · intro b r
    cases b <;> rfl
  · intro r e
    exact ⟨rfl, rfl⟩
  · intro b
    cases b <;> rfl
  · intro e
    rfl

/-- C7: after the session's cancellation scope (captured by value at
transport-creation time) has been canceled, a message callback from the
superseded transport is logged and dropped — nothing reaches the consumer's
on-message callback and the connection is untouched — and an error callback
is logged and dropped without completing the connect-completion event, so no
state transition and no retroactive connect failure can result. -/
theorem C7_stale_callbacks_dropped (connection_alive : Bool)
    (cb : String → Except String Unit) (c : Conn) (response e : String) (tce : Tce) :
    transport_message_callback true connection_alive cb c response
      = (c, [],
         some ("ignoring stray message received after connection was restarted. message: "
           ++ response)) ∧
    transport_error_callback true e tce
      = (tce,
         some ("ignoring stray error received after connection was restarted. error: " ++ e)) :=
  ⟨rfl, rfl⟩

/-- C9: an exception thrown by the consumer's on-message callback is caught
and logged inside `invoke_message_received` — the message pump continuation
still returns normally with the connection untouched — and an exception from
the consumer's on-disconnected callback is caught and logged in `stop`'s
continuation, leaving the stop pipeline's state transition exactly as in the
non-throwing case. -/
theorem C9_consumer_callback_isolation (c : Conn) (response e d : String) :
    transport_message_callback false true (fun _ => Except.error e) c response
      = (c, [response], some ("message_received callback threw an exception: " ++ e)) ∧
    (connection_impl.stop_finalize c (Except.error d)).1
      = (connection_impl.stop_finalize c (Except.ok ())).1 ∧
    (connection_impl.stop_finalize c (Except.error d)).2
      = some ("disconnected callback threw an exception: " ++ d) :=
  ⟨rfl, rfl, rfl⟩

/-- C10: the factory-constructed connection starts with no-op on-message and
on-disconnected callbacks, so delivering an inbound message or running the
disconnected dispatch before the consumer registered anything succeeds with
no error and no logged callback failure; the fresh connection is disconnected
with no transport. -/
theorem C10_default_callbacks_safe (url response : String) (c : Conn) :
    transport_message_callback false true (connection_impl.create url).2.m_message_received c
        response = (c, [response], none) ∧
    connection_impl.invoke_message_received (connection_impl.create url).2.m_message_received
        response = none ∧
    (connection_impl.stop_finalize c ((connection_impl.create url).2.m_disconnected ())).2
      = none ∧
    (connection_impl.create url).1.m_connection_state = ConnectionState.disconnected ∧
    (connection_impl.create url).1.m_transport = none :=
  ⟨rfl, rfl, rfl, rfl, rfl⟩

/-- C8: the negotiation orchestrator fails immediately (issuing no negotiate
call and touching no headers) once the redirect counter has reached the
bound; on a redirect response it recurses with the redirect url and
counter + 1, first overwriting the Authorization header with
"Bearer token" when the redirect carries a bearer token and leaving the
headers untouched when it does not. -/
theorem C8_negotiate_redirect_handling (hs : Headers)
    (o : Nat → Except String NegotiationResponse) (i : Nat) (url : String)
    (rc : Nat) (resp : NegotiationResponse) :
    (MAX_NEGOTIATE_REDIRECTS ≤ rc →
       connection_impl.start_negotiate hs o i url rc
         = (hs, 0, NegotiateOutcome.redirectLimitExceeded)) ∧
    (rc < MAX_NEGOTIATE_REDIRECTS → o i = Except.ok resp → resp.error = "" →
       resp.url ≠ "" → resp.accessToken ≠ "" →
       connection_impl.start_negotiate hs o i url rc
         = (let r := connection_impl.start_negotiate
               (set_header hs "Authorization" ("Bearer " ++ resp.accessToken)) o (i + 1)
               resp.url (rc + 1)
            (r.1, r.2.1 + 1, r.2.2))) ∧
    (rc < MAX_NEGOTIATE_REDIRECTS → o i = Except.ok resp → resp.error = "" →
       resp.url ≠ "" → resp.accessToken = "" →
       connection_impl.start_negotiate hs o i url rc
         = (let r := connection_impl.start_negotiate hs o (i + 1) resp.url (rc + 1)
            (r.1, r.2.1 + 1, r.2.2))) ∧
    set_header hs "Authorization" ("Bearer " ++ resp.accessToken) "Authorization"
      = some ("Bearer " ++ resp.accessToken) := by
  refine ⟨?_, ?_, ?_, ?_⟩
  · intro h
    rw [connection_impl.start_negotiate]
    simp [h]
  · intro h1 h2 h3 h4 h5
    have hn : ¬ MAX_NEGOTIATE_REDIRECTS ≤ rc := by omega
    rw [connection_impl.start_negotiate]
    simp [hn, h2, h3, h4, h5]
  · intro h1 h2 h3 h4 h5
    have hn : ¬ MAX_NEGOTIATE_REDIRECTS ≤ rc := by omega
    rw [connection_impl.start_negotiate]
    simp [hn, h2, h3, h4, h5]
  · simp [set_header]

/-- Empty header configuration, concrete input for the C8 witness. -/
def emptyHeadersEx : Headers := fun _ => none

/-- A negotiate response carrying a redirect url and a bearer token, concrete
input for the C8 witness. -/
def redirectRespEx : NegotiationResponse :=
  { error := "",
    url := "http://redirected.example",
    accessToken := "tok",
    connectionId := "",
    availableTransports := [] }

/-- An oracle whose every negotiate round trip returns the redirect response. -/
def oracleRedirectEx : Nat → Except String NegotiationResponse :=
  fun _ => Except.ok redirectRespEx

/-- Concrete instances of `C8_negotiate_redirect_handling`: at the redirect
bound the orchestrator fails without a negotiate call; below the bound a
redirect-with-token response recurses on the redirect url with the counter
bumped and the Authorization header overwritten. -/
theorem C8_negotiate_redirect_handling_witness :
    connection_impl.start_negotiate emptyHeadersEx oracleRedirectEx 0 "http://x.example"
        MAX_NEGOTIATE_REDIRECTS
      = (emptyHeadersEx, 0, NegotiateOutcome.redirectLimitExceeded) ∧
    connection_impl.start_negotiate emptyHeadersEx oracleRedirectEx 0 "http://x.example" 0
      = (let r := connection_impl.start_negotiate
            (set_header emptyHeadersEx "Authorization" ("Bearer " ++ redirectRespEx.accessToken))
            oracleRedirectEx 1 redirectRespEx.url 1
         (r.1, r.2.1 + 1, r.2.2)) ∧
    set_header emptyHeadersEx "Authorization" ("Bearer " ++ redirectRespEx.accessToken)
        "Authorization" = some ("Bearer " ++ redirectRespEx.accessToken) :=
  ⟨(C8_negotiate_redirect_handling emptyHeadersEx oracleRedirectEx 0 "http://x.example"
      MAX_NEGOTIATE_REDIRECTS redirectRespEx).1 (le_refl _),
   (C8_negotiate_redirect_handling emptyHeadersEx oracleRedirectEx 0 "http://x.example" 0
      redirectRespEx).2.1 (by decide) rfl rfl (by decide) (by decide),
   (C8_negotiate_redirect_handling emptyHeadersEx oracleRedirectEx 0 "http://x.example" 0
      redirectRespEx).2.2.2⟩

/-- The lock-guarded prefix of shutdown never changes the connection state. -/
theorem shutdown_begin_conn_state (c : Conn) :
    (connection_impl.shutdown_begin c).1.m_connection_state = c.m_connection_state := by
  unfold connection_impl.shutdown_begin
  split
  · rfl
  · split <;> rfl

/-- The lock-guarded prefix of shutdown never touches the transport handle. -/
theorem shutdown_begin_conn_transport (c : Conn) :
    (connection_impl.shutdown_begin c).1.m_transport = c.m_transport := by
  unfold connection_impl.shutdown_begin
  split
  · rfl
  · split <;> rfl

/-- The lock-guarded prefix of shutdown never touches the start-completed
latch (it only waits on it afterwards). -/
theorem shutdown_begin_conn_event (c : Conn) :
    (connection_impl.shutdown_begin c).1.m_start_completed_event
      = c.m_start_completed_event := by
  unfold connection_impl.shutdown_begin
  split
  · rfl
  · split <;> rfl

/-- Preservation of `transport_state_inv` under any change that keeps the
state and the transport handle. -/
theorem transport_state_inv_of_eq {c c' : Conn}
    (hs : c'.m_connection_state = c.m_connection_state)
    (ht : c'.m_transport = c.m_transport) (h : transport_state_inv c) :
    transport_state_inv c' := by
  obtain ⟨h1, h2⟩ := h
  constructor
  · rw [hs, ht]
    exact h1
  · rw [hs, ht]
    exact h2

/-- C4: the invariant "non-null transport handle implies state is connecting,
connected or disconnecting; disconnected implies null transport" holds
initially and is preserved by every operation of the connection core — via
the inductive strengthening `SysInv` that records what the pending start
pipeline and the start-completed latch guarantee about the state. -/
theorem C4_transport_invariant :
    (∀ url, SysInv (initialSys url)) ∧
    (∀ s s' : Sys, SysInv s → Step s s' → SysInv s') ∧
    (∀ s : Sys, SysInv s → transport_state_inv s.conn) := by
  refine ⟨?_, ?_, ?_⟩
  · intro url
    refine ⟨⟨?_, ?_⟩, ?_, ?_⟩ <;>
      simp [initialSys, connection_impl.create, transport_state_inv]
  · intro s s' hInv hStep
    obtain ⟨⟨hT1, hT2⟩, hNeg, hFin⟩ := hInv
    cases hStep with
    | start =>
      by_cases hd : s.conn.m_connection_state = ConnectionState.disconnected
      · have ht : s.conn.m_transport = none := hT2 hd
        simp [startStep, connection_impl.start, connection_impl.change_state_cas, hd, SysInv,
          transport_state_inv, ht]
      · simp only [startStep, connection_impl.start, connection_impl.change_state_cas, hd,
          if_false, ite_false]
        exact ⟨⟨hT1, hT2⟩, hNeg, hFin⟩
    | finalizeError h =>
      simp [finalizeErrorStep, connection_impl.start_negotiate_finalize,
        connection_impl.change_state_force, SysInv, transport_state_inv]
    | transportConnected t h =>
      obtain ⟨hcs, hev⟩ := hNeg h
      simp [transportConnectedStep, connection_impl.change_state_cas, hcs, SysInv,
        transport_state_inv, hev]
    | finalizeOk h =>
      obtain ⟨hcs, hev⟩ := hFin h
      refine ⟨transport_state_inv_of_eq (c := s.conn) (by simp [finalizeOkStep,
          connection_impl.start_negotiate_finalize]) (by simp [finalizeOkStep,
          connection_impl.start_negotiate_finalize]) ⟨hT1, hT2⟩, ?_, ?_⟩
      · intro hph
        simp [finalizeOkStep] at hph
      · intro hph
        simp [finalizeOkStep] at hph
    | shutdownBegin h =>
      refine ⟨transport_state_inv_of_eq (c := s.conn)
        (shutdown_begin_conn_state s.conn) (shutdown_begin_conn_transport s.conn)
        ⟨hT1, hT2⟩, ?_, ?_⟩
      · intro hph
        have hc := hNeg hph
        exact ⟨(shutdown_begin_conn_state s.conn).trans hc.1,
               (shutdown_begin_conn_event s.conn).trans hc.2⟩
      · intro hph
        have hc := hFin hph
        exact ⟨(shutdown_begin_conn_state s.conn).trans hc.1,
               (shutdown_begin_conn_event s.conn).trans hc.2⟩
    | shutdownResume h hl =>
      have hpn : s.phase ≠ Phase.negotiating := by
        intro hp
        rw [(hNeg hp).2] at hl
        exact Bool.noConfusion hl
      have hpf : s.phase ≠ Phase.finishing := by
        intro hp
        rw [(hFin hp).2] at hl
        exact Bool.noConfusion hl
      by_cases h1 : s.conn.m_connection_state = ConnectionState.disconnected
      · refine ⟨transport_state_inv_of_eq (c := s.conn)
          (by simp [shutdownResumeStep, connection_impl.shutdown_resume, h1])
          (by simp [shutdownResumeStep, connection_impl.shutdown_resume, h1])
          ⟨hT1, hT2⟩, ?_, ?_⟩
        · intro hph
          exact absurd (by simpa [shutdownResumeStep] using hph) hpn
        · intro hph
          exact absurd (by simpa [shutdownResumeStep] using hph) hpf
      · refine ⟨⟨?_, ?_⟩, ?_, ?_⟩
        · intro _
          right; right
          simp [shutdownResumeStep, connection_impl.shutdown_resume, h1,
            connection_impl.change_state_force]
        · intro hds
          simp [shutdownResumeStep, connection_impl.shutdown_resume, h1,
            connection_impl.change_state_force] at hds
        · intro hph
          exact absurd (by simpa [shutdownResumeStep] using hph) hpn
        · intro hph
          exact absurd (by simpa [shutdownResumeStep] using hph) hpf
    | stopFinalize =>
      by_cases hds : s.conn.m_connection_state = ConnectionState.disconnecting
      · have hpn : s.phase ≠ Phase.negotiating := by
          intro hp
          have h2 := (hNeg hp).1
          simp [hds] at h2
        have hpf : s.phase ≠ Phase.finishing := by
          intro hp
          have h2 := (hFin hp).1
          simp [hds] at h2
        refine ⟨⟨?_, ?_⟩, ?_, ?_⟩
        · intro hne
          exact absurd (by simp [stopFinalizeStep, stop_finalize_conn,
            connection_impl.change_state_cas, hds]) hne
        · intro _
          simp [stopFinalizeStep, stop_finalize_conn, connection_impl.change_state_cas, hds]
        · intro hph
          exact absurd (by simpa [stopFinalizeStep] using hph) hpn
        · intro hph
          exact absurd (by simpa [stopFinalizeStep] using hph) hpf
      · refine ⟨transport_state_inv_of_eq (c := s.conn)
          (by simp [stopFinalizeStep, stop_finalize_conn, connection_impl.change_state_cas, hds])
          (by simp [stopFinalizeStep, stop_finalize_conn, connection_impl.change_state_cas, hds])
          ⟨hT1, hT2⟩, ?_, ?_⟩
        · intro hph
          have hph2 : s.phase = Phase.negotiating := by
            simpa [stopFinalizeStep] using hph
          have := hNeg hph2
          simpa [stopFinalizeStep, stop_finalize_conn, connection_impl.change_state_cas, hds]
            using this
        · intro hph
          have hph2 : s.phase = Phase.finishing := by
            simpa [stopFinalizeStep] using hph
          have := hFin hph2
          simpa [stopFinalizeStep, stop_finalize_conn, connection_impl.change_state_cas, hds]
            using this
    | observe =>
      exact ⟨⟨hT1, hT2⟩, hNeg, hFin⟩
  · intro s hInv
    exact hInv.1

/-- Concrete instances of `C4_transport_invariant`: the invariant holds on a
fresh connection, is carried across a `start` step, and yields the claimed
transport/state implication. -/
theorem C4_transport_invariant_witness :
    SysInv (initialSys "http://x.example") ∧
    SysInv (startStep (initialSys "http://x.example")) ∧
    transport_state_inv (initialSys "http://x.example").conn :=
  ⟨C4_transport_invariant.1 "http://x.example",
   C4_transport_invariant.2.1 _ _ (C4_transport_invariant.1 "http://x.example")
     (Step.start _),
   C4_transport_invariant.2.2 _ (C4_transport_invariant.1 "http://x.example")⟩

end signalr
